import Mathlib

/-
Verification of the conversation session state machine and slot-extraction
engine of the AI phone agent (src/app.js).

The JavaScript program is shallowly embedded:
  * strings are Lean String values; the character-level scanning that the
    regex patterns and String.prototype.includes perform is modelled on
    List Char;
  * the sqlite tables are modelled as Lean lists of row structures;
    JSON.stringify / JSON.parse of the history and collected-data columns
    round-trip structured values and are modelled as the identity;
  * promise rejection and thrown exceptions are modelled with Except, and
    the try/catch of the /gather handler with a match on the Except;
  * the OpenAI generation collaborator is a parameter
    gen : List Msg -> String -> Except GenError String (the call can throw);
  * the Twilio SMS client is a parameter smsOk : Bool telling whether
    messages.create succeeds; a failure is caught inside
    sendSteakInstructions and only logged.
-/

/-- JS regex word character class backslash-w: [A-Za-z0-9_]. -/
def isWordChar (c : Char) : Bool := c.isAlpha || c.isDigit || c == '_'

/-- JS String.prototype.toLowerCase on the characters of the transcript
(ASCII case mapping suffices for the vocabulary involved). -/
def lowerL (l : List Char) : List Char := l.map Char.toLower

/-- Case-insensitive literal match of `cue` at the front of `l` (the /i flag
of the regex patterns); returns the remainder of `l` on success. -/
def ciStrip : List Char → List Char → Option (List Char)
  | [], rest => some rest
  | _ :: _, [] => none
  | c :: cs, d :: ds => if c.toLower == d.toLower then ciStrip cs ds else none

/-- Leftmost match of a /cue(w+)/i-style regex as used by
String.prototype.match: scan positions left to right; at a position the cue
must match case-insensitively and be followed by at least one word
character; the capture is the maximal word-character run after the cue.
If the capture would be empty the regex engine fails at this position and
resumes scanning at the next one. -/
def findCue (cue : List Char) : List Char → Option (List Char)
  | [] => none
  | c :: ls =>
    match ciStrip cue (c :: ls) with
    | some rest =>
      let cap := rest.takeWhile isWordChar
      if cap.isEmpty then findCue cue ls else some cap
    | none => findCue cue ls

/-- JS String.prototype.includes: `pat` occurs as a contiguous substring. -/
def listContains (l pat : List Char) : Bool :=
  match l with
  | [] => pat.isEmpty
  | c :: ls => pat.isPrefixOf (c :: ls) || listContains ls pat

/-- Array.prototype.join of message contents with a single space, as in
conversationHistory.map(msg => msg.content).join(' '). -/
def joinSpace : List String → String
  | [] => ""
  | [s] => s
  | s :: b :: rest => s ++ " " ++ joinSpace (b :: rest)

/- ---------------- Slot Extractor (CallAssistant.extractInformation) ---- -/

/-- The partial record the extractor returns: only the fields it found are
present (JS object with optional properties). -/
structure Info where
  name : Option String := none
  favoriteColor : Option String := none
  steakPreference : Option String := none
deriving Repr, DecidableEq

/-- Cue of the first name pattern /my name is (w+)/i. -/
def cueMyNameIs : List Char := "my name is ".toList

/-- Cue of the second name pattern, "i", apostrophe, "m", space. -/
def cueIm : List Char := "i'm ".toList

/-- Cue of the third name pattern /this is (w+)/i. -/
def cueThisIs : List Char := "this is ".toList

/-- The name-pattern ladder of extractInformation: patterns are tried in
order against the original (not lower-cased) conversation, the /i flag
making the cue match case-insensitive; the first pattern that matches
anywhere wins (break) and its capture is taken verbatim. -/
def extractName (conversation : List Char) : Option String :=
  match findCue cueMyNameIs conversation with
  | some m => some (String.mk m)
  | none =>
    match findCue cueIm conversation with
    | some m => some (String.mk m)
    | none =>
      match findCue cueThisIs conversation with
      | some m => some (String.mk m)
      | none => none

/-- The fixed color vocabulary, in source order. -/
def colors : List String :=
  ["red", "blue", "green", "yellow", "purple", "orange", "pink", "black",
   "white", "brown"]

/-- The fixed doneness vocabulary, in source order: note that "rare" is
tested before "medium rare". -/
def steakPrefs : List String :=
  ["rare", "medium rare", "medium well", "medium", "well done"]

/-- The vocabulary scan: first word of the list found as a substring of the
lower-cased text wins (for-loop with break over text.includes(word)). -/
def findFirstIncluded (text : List Char) : List String → Option String
  | [] => none
  | w :: ws =>
    if listContains text w.toList then some w else findFirstIncluded text ws

/-- CallAssistant.extractInformation (src/app.js lines 99-133): name from
the regex ladder over the original text, color and steak preference from
vocabulary scans over the lower-cased text. -/
def extractInformation (conversation : String) : Info :=
  let chars := conversation.toList
  let text := lowerL chars
  { name := extractName chars
    favoriteColor := findFirstIncluded text colors
    steakPreference := findFirstIncluded text steakPrefs }

/- ---------------- Data model: tables and collaborators ----------------- -/

/-- One entry of the conversation history ({role, content}). -/
structure Msg where
  role : String
  content : String
deriving Repr, DecidableEq

/-- Helper building the user history entry pushed by the /gather handler. -/
def userMsg (u : String) : Msg := { role := "user", content := u }

/-- Helper building the assistant history entry pushed by the handler. -/
def assistantMsg (a : String) : Msg := { role := "assistant", content := a }

/-- A row of the call_sessions table. The conversation_state and
collected_data TEXT columns hold JSON; serialization round-trips the
structured values, so the row carries them directly. The autoincrement id
column is not claim-relevant and is omitted. -/
structure SessionRow where
  call_sid : String
  phone_number : String
  conversation_state : List Msg
  collected_data : Info
deriving Repr, DecidableEq

/-- A row of the customers table (phone_number is UNIQUE). -/
structure CustomerRow where
  phone_number : String
  name : String
  favorite_color : String
  steak_preference : String
deriving Repr, DecidableEq

/-- Temperature and time for one doneness label. -/
structure SteakInfo where
  temp : String
  time : String
deriving Repr, DecidableEq

/-- The steakTemperatures mapping (src/app.js lines 58-64); the degree
characters of the source literals appear mojibake-encoded there and are
reproduced as a plain degree sign. -/
def steakTemperatures : List (String × SteakInfo) :=
  [("rare", { temp := "120-125°F", time := "2-3 minutes per side" }),
   ("medium rare", { temp := "130-135°F", time := "3-4 minutes per side" }),
   ("medium", { temp := "135-145°F", time := "4-5 minutes per side" }),
   ("medium well", { temp := "145-155°F", time := "5-6 minutes per side" }),
   ("well done", { temp := "155°F+", time := "6+ minutes per side" })]

/-- One SMS handed to twilioClient.messages.create, recorded as the values
the message template interpolates (the literal template text, emoji-laden,
is elided as no claim concerns it). -/
structure SmsRecord where
  toNumber : String
  name : String
  favoriteColor : String
  steakPreference : String
  temp : String
  time : String
deriving Repr, DecidableEq

/-- The persistent state the handlers touch: the two sqlite tables and the
outbox of SMS messages accepted by the Twilio client. -/
structure World where
  sessions : List SessionRow
  customers : List CustomerRow
  smsOutbox : List SmsRecord
deriving Repr, DecidableEq

/-- Error taxonomy of the session store: the promise of getSession can in
principle reject (sqlite error); sessionNotFound is the error the spec
ascribes to a missing row. -/
inductive StoreError where
  | sessionNotFound
  | storageUnavailable
deriving Repr, DecidableEq

/-- Failure of the generation collaborator (the OpenAI call throwing). -/
inductive GenError where
  | generationUnavailable
deriving Repr, DecidableEq

/-- SELECT * FROM call_sessions WHERE call_sid = ? : sqlite db.get returns
the first matching row, or undefined when there is none. -/
def findRow (sessions : List SessionRow) (sid : String) : Option SessionRow :=
  sessions.find? (fun r => r.call_sid == sid)

/-- getSession (src/app.js lines 272-283): the promise rejects only on a
sqlite error; on a missing row db.get invokes the callback with
(null, undefined) and the promise RESOLVES with undefined — it does not
reject with SessionNotFound. With the database reachable the result is
always Except.ok of the optional row. -/
def getSession (sessions : List SessionRow) (sid : String) :
    Except StoreError (Option SessionRow) :=
  Except.ok (findRow sessions sid)

/-- updateSession (src/app.js lines 285-296): UPDATE ... WHERE call_sid = ?
replaces the two columns on every row whose call_sid matches. -/
def updateSession (sessions : List SessionRow) (sid : String)
    (hist : List Msg) (data : Info) : List SessionRow :=
  sessions.map (fun r =>
    if r.call_sid == sid then
      { r with conversation_state := hist, collected_data := data }
    else r)

/-- saveCustomerData (src/app.js lines 298-311): INSERT OR REPLACE into
customers, whose phone_number column is UNIQUE — any existing row for the
number is replaced (modelled as filter out then append). The caller only
invokes this once every Info field is present; a missing field would insert
as undefined and is rendered here by getD "". -/
def saveCustomerData (customers : List CustomerRow) (phone : String)
    (info : Info) : List CustomerRow :=
  customers.filter (fun c => !(c.phone_number == phone)) ++
    [{ phone_number := phone
       name := info.name.getD ""
       favorite_color := info.favoriteColor.getD ""
       steak_preference := info.steakPreference.getD "" }]

/-- sendSteakInstructions (src/app.js lines 314-337): looks the doneness up
in steakTemperatures (falling back to the medium entry), builds the message
and hands it to the Twilio client inside its own try/catch — a delivery
failure (smsOk = false) is logged and swallowed, so this function never
throws and on failure leaves the outbox as it was. -/
def sendSteakInstructions (smsOk : Bool) (outbox : List SmsRecord)
    (phone : String) (info : Info) : List SmsRecord :=
  let pref := info.steakPreference.getD ""
  let tempInfo :=
    (steakTemperatures.lookup (String.mk (lowerL pref.toList))).getD
      { temp := "135-145°F", time := "4-5 minutes per side" }
  if smsOk then
    outbox ++ [{ toNumber := phone
                 name := info.name.getD ""
                 favoriteColor := info.favoriteColor.getD ""
                 steakPreference := pref
                 temp := tempInfo.temp
                 time := tempInfo.time }]
  else outbox

/- ---------------- Dialogue turn controller (app.post /gather) ---------- -/

/-- What the /gather handler renders back as TwiML. -/
inductive Outcome where
  | complete (prompt : String)
  | cont (prompt : String)
  | failed (prompt : String)
deriving Repr, DecidableEq

/-- Whether the branch rendering this outcome issues another
twiml.gather (a further listening turn): the complete branch hangs up, the
continue branch and the catch branch both gather again. -/
def gathersAgain : Outcome → Bool
  | .complete _ => false
  | .cont _ => true
  | .failed _ => true

/-- The closing prompt of the complete branch, embedding the extracted
name (src/app.js lines 203-204). -/
def completePrompt (name : String) : String :=
  "Perfect! Thanks " ++ name ++ ". I've got your information and " ++
  "you'll receive a text with your personalized steak cooking " ++
  "instructions shortly. Have a great day!"

/-- The apology spoken by the catch branch (src/app.js lines 221-222). -/
def failedPrompt : String :=
  "I'm sorry, I'm having trouble processing that. Let me try again."

/-- Array.prototype.slice(-6): the last n elements of the list. -/
def sliceLast (n : Nat) (l : List α) : List α := l.drop (l.length - n)

/-- The full-conversation blob the extractor sees:
conversationHistory.map(msg => msg.content).join(' '). -/
def fullText (history : List Msg) : String :=
  joinSpace (history.map Msg.content)

/-- What the try block of the /gather handler can throw. -/
inductive JsError where
  | typeError
  | genFailure (e : GenError)
  | storeFailure (e : StoreError)
deriving Repr, DecidableEq

/-- The try block of app.post('/gather') (src/app.js lines 168-218):
load the session (dereferencing an undefined session throws a TypeError),
push the user utterance, call the generation collaborator on the last six
history entries, push its reply, re-extract over the joined full history,
persist both columns, then either complete (save customer, send SMS, speak
the closing prompt and hang up) or continue with the generated text. -/
def gatherTry (gen : List Msg → String → Except GenError String)
    (smsOk : Bool) (w : World) (callSid fromNum speechResult : String) :
    Except JsError (Outcome × World) :=
  match getSession w.sessions callSid with
  | .error e => .error (JsError.storeFailure e)
  | .ok none => .error JsError.typeError
  | .ok (some session) =>
    let hist1 := session.conversation_state ++ [userMsg speechResult]
    match gen (sliceLast 6 hist1) speechResult with
    | .error e => .error (JsError.genFailure e)
    | .ok aiResponse =>
      let hist2 := hist1 ++ [assistantMsg aiResponse]
      let extractedInfo := extractInformation (fullText hist2)
      let w1 : World :=
        { w with sessions := updateSession w.sessions callSid hist2 extractedInfo }
      if extractedInfo.name.isSome && extractedInfo.favoriteColor.isSome &&
          extractedInfo.steakPreference.isSome then
        let w2 : World :=
          { w1 with customers := saveCustomerData w1.customers fromNum extractedInfo }
        let w3 : World :=
          { w2 with smsOutbox := sendSteakInstructions smsOk w2.smsOutbox fromNum extractedInfo }
        .ok (Outcome.complete (completePrompt (extractedInfo.name.getD "")), w3)
      else
        .ok (Outcome.cont aiResponse, w1)

/-- app.post('/gather') with its catch (src/app.js lines 162-234): any
throw inside the try is converted into the apologetic prompt plus another
gather, leaving the persisted state as it was. -/
def handleTurn (gen : List Msg → String → Except GenError String)
    (smsOk : Bool) (w : World) (callSid fromNum speechResult : String) :
    Outcome × World :=
  match gatherTry gen smsOk w callSid fromNum speechResult with
  | .ok r => r
  | .error _ => (Outcome.failed failedPrompt, w)

/- ---------------- getOrCreateSession and its create-path race ---------- -/

/-- The row the INSERT of getOrCreateSession persists: call_sid and
phone_number as given, conversation_state [] and collected_data empty
(the JSON literals [] and then the empty object of the source). -/
def mkRow (sid phone : String) : SessionRow :=
  { call_sid := sid
    phone_number := phone
    conversation_state := []
    collected_data := {} }

/-- Progress of one getOrCreateSession invocation (src/app.js lines
237-270). sqlite serializes individual statements, so each invocation is
two atomic database actions: the SELECT (db.get) and, when the SELECT saw
no row, the INSERT (db.run); between the two the event loop can run the
other invocation. The call_sessions table has no UNIQUE constraint on
call_sid, so the INSERT never conflicts. -/
inductive Phase where
  | start
  | observed (r : Option SessionRow)
  | finished (r : SessionRow)
deriving Repr, DecidableEq

/-- One invocation of getOrCreateSession together with its progress. -/
structure Thread where
  sid : String
  phone : String
  phase : Phase
deriving Repr, DecidableEq

/-- A fresh invocation about to issue its SELECT. -/
def mkThread (sid phone : String) : Thread :=
  { sid := sid, phone := phone, phase := Phase.start }

/-- One atomic step of an invocation: the SELECT records what it saw; a
miss is followed by the INSERT (resolving the freshly built row); a hit
resolves the row the SELECT returned. -/
def stepThread (db : List SessionRow) (t : Thread) :
    List SessionRow × Thread :=
  match t.phase with
  | Phase.start => (db, { t with phase := Phase.observed (findRow db t.sid) })
  | Phase.observed none =>
    let row := mkRow t.sid t.phone
    (db ++ [row], { t with phase := Phase.finished row })
  | Phase.observed (some r) => (db, { t with phase := Phase.finished r })
  | Phase.finished _ => (db, t)

/-- Interleaved execution of two getOrCreateSession invocations: true steps
the first thread, false the second. -/
def run2 (schedule : List Bool) (db : List SessionRow) (a b : Thread) :
    List SessionRow × Thread × Thread :=
  match schedule with
  | [] => (db, a, b)
  | true :: rest =>
    let s := stepThread db a
    run2 rest s.1 s.2 b
  | false :: rest =>
    let s := stepThread db b
    run2 rest s.1 a s.2

/-- The callId an invocation resolved with, once finished. -/
def observedSid (t : Thread) : Option String :=
  match t.phase with
  | Phase.finished r => some r.call_sid
  | _ => none

/-- The racy schedule: both SELECTs run before either INSERT (two webhook
deliveries for the same call arriving together). -/
def racySchedule : List Bool := [true, false, true, false]

/-- The sequential schedule: the first invocation completes before the
second starts. -/
def seqSchedule : List Bool := [true, true, false, false]

/-- The history a successful turn persists: the loaded history plus the
user utterance plus the generated reply. -/
def turnHistory (session : SessionRow) (u ai : String) : List Msg :=
  session.conversation_state ++ [userMsg u] ++ [assistantMsg ai]

/-- The record a successful turn extracts from the joined full history. -/
def turnInfo (session : SessionRow) (u ai : String) : Info :=
  extractInformation (fullText (turnHistory session u ai))

/- ---------------- Test doubles used by the witnesses ------------------- -/

/-- A generation collaborator that always throws. -/
def failGen : List Msg → String → Except GenError String :=
  fun _ _ => Except.error GenError.generationUnavailable

/-- A generation collaborator that always answers with a fixed phrase free
of any vocabulary word. -/
def okGen : List Msg → String → Except GenError String :=
  fun _ _ => Except.ok "Thank you, that sounds lovely."

/-- History after one completed exchange. -/
def histTurn1 : List Msg :=
  [userMsg "Hi, my name is Sam",
   assistantMsg "Nice to meet you Sam, what is your favorite color?"]

/-- Session persisted after turn 1 (collected data as the turn stored it:
the extraction over the joined history). -/
def sessionTurn1 : SessionRow :=
  { call_sid := "CA1"
    phone_number := "+15550100"
    conversation_state := histTurn1
    collected_data := extractInformation (fullText histTurn1) }

/-- World after turn 1. -/
def worldTurn1 : World :=
  { sessions := [sessionTurn1], customers := [], smsOutbox := [] }

/-- History after three exchanges, two slots filled. -/
def histTurn3 : List Msg :=
  [userMsg "Hi, my name is Sam",
   assistantMsg "Nice to meet you Sam, what is your favorite color?",
   userMsg "I like blue",
   assistantMsg "And how do you like your steak cooked?"]

/-- Session persisted before the completing turn. -/
def sessionTurn3 : SessionRow :=
  { call_sid := "CA1"
    phone_number := "+15550100"
    conversation_state := histTurn3
    collected_data := extractInformation (fullText histTurn3) }

/-- World before the completing turn. -/
def worldTurn3 : World :=
  { sessions := [sessionTurn3], customers := [], smsOutbox := [] }

/- ---------------- Supporting lemmas ------------------------------------ -/

/-- listContains is exactly substring occurrence. -/
theorem listContains_iff_occurs (l pat : List Char) :
    listContains l pat = true ↔ pat <:+: l := by
  induction l with
  | nil =>
    simp [listContains]
  | cons c ls ih =>
    simp [listContains, ih, List.infix_cons_iff]

/-- A substring of the text stays one when the text is extended on the
right (the transcript only ever grows at the end). -/
theorem listContains_append_of (l m pat : List Char)
    (h : listContains l pat = true) : listContains (l ++ m) pat = true := by
  rw [listContains_iff_occurs] at h ⊢
  exact h.trans ⟨[], m, by simp⟩

/-- Substring occurrence is transitive. -/
theorem listContains_trans (l p q : List Char)
    (h1 : listContains l p = true) (h2 : listContains p q = true) :
    listContains l q = true := by
  rw [listContains_iff_occurs] at h1 h2 ⊢
  exact h2.trans h1

/-- join(' ') over a split list. -/
theorem joinSpace_append (xs ys : List String) (hx : xs ≠ []) (hy : ys ≠ []) :
    joinSpace (xs ++ ys) = joinSpace xs ++ " " ++ joinSpace ys := by
  induction xs with
  | nil => exact absurd rfl hx
  | cons a xs ih =>
    cases xs with
    | nil =>
      cases ys with
      | nil => exact absurd rfl hy
      | cons b ys => simp [joinSpace]
    | cons a2 xs2 =>
      have hih := ih (by simp)
      simp only [List.cons_append] at hih ⊢
      rw [joinSpace, joinSpace, hih]
      simp [String.append_assoc]

/-- Appending text keeps a successful case-insensitive cue match, the
remainder being extended by the new text. -/
theorem ciStrip_append (cue : List Char) :
    ∀ l rest m : List Char, ciStrip cue l = some rest →
      ciStrip cue (l ++ m) = some (rest ++ m) := by
  induction cue with
  | nil =>
    intro l rest m h
    simp [ciStrip] at h
    subst h
    rfl
  | cons c cs ih =>
    intro l rest m h
    cases l with
    | nil => simp [ciStrip] at h
    | cons d ds =>
      rw [ciStrip] at h
      rw [List.cons_append, ciStrip]
      by_cases hc : (c.toLower == d.toLower) = true
      · rw [if_pos hc] at h ⊢
        exact ih ds rest m h
      · rw [if_neg hc] at h
        exact absurd h (by simp)

/-- Equation of findCue at a position where the cue matches. -/
theorem findCue_cons_of_some (cue : List Char) (c : Char) (ls rest : List Char)
    (h : ciStrip cue (c :: ls) = some rest) :
    findCue cue (c :: ls) =
      if (rest.takeWhile isWordChar).isEmpty then findCue cue ls
      else some (rest.takeWhile isWordChar) := by
  rw [findCue, h]

/-- Equation of findCue at a position where the cue does not match. -/
theorem findCue_cons_of_none (cue : List Char) (c : Char) (ls : List Char)
    (h : ciStrip cue (c :: ls) = none) :
    findCue cue (c :: ls) = findCue cue ls := by
  rw [findCue, h]

/-- Appending text never destroys a cue match: if the regex matched
somewhere in the text it still matches somewhere in the extended text. -/
theorem findCue_append_isSome (cue : List Char) :
    ∀ l m : List Char, (findCue cue l).isSome →
      (findCue cue (l ++ m)).isSome := by
  intro l
  induction l with
  | nil =>
    intro m h
    simp [findCue] at h
  | cons c ls ih =>
    intro m h
    cases horig : ciStrip cue (c :: ls) with
    | some rest =>
      rw [findCue_cons_of_some cue c ls rest horig] at h
      have hext := ciStrip_append cue (c :: ls) rest m horig
      rw [List.cons_append] at hext
      rw [List.cons_append, findCue_cons_of_some cue c (ls ++ m) (rest ++ m) hext]
      by_cases hcap : (rest.takeWhile isWordChar).isEmpty = true
      · -- the capture was empty: the original scan moved on
        rw [if_pos hcap] at h
        by_cases hcap2 : ((rest ++ m).takeWhile isWordChar).isEmpty = true
        · rw [if_pos hcap2]
          exact ih m h
        · rw [if_neg hcap2]
          simp
      · -- nonempty capture: the extended capture starts with the same char
        cases rest with
        | nil => simp [List.takeWhile_nil] at hcap
        | cons r rs =>
          by_cases hr : isWordChar r = true
          · have h2 : ((r :: (rs ++ m)).takeWhile isWordChar).isEmpty = false := by
              simp [List.takeWhile_cons, hr]
            rw [if_neg (by rw [List.cons_append, h2]; simp)]
            simp
          · exact absurd (by simp [List.takeWhile_cons, hr]) hcap
    | none =>
      rw [findCue_cons_of_none cue c ls horig] at h
      cases hext : ciStrip cue (c :: (ls ++ m)) with
      | some rest2 =>
        rw [List.cons_append, findCue_cons_of_some cue c (ls ++ m) rest2 hext]
        by_cases hcap2 : (rest2.takeWhile isWordChar).isEmpty = true
        · rw [if_pos hcap2]
          exact ih m h
        · rw [if_neg hcap2]
          simp
      | none =>
        rw [List.cons_append, findCue_cons_of_none cue c (ls ++ m) hext]
        exact ih m h

/-- Equation of the ladder when the first pattern matches: the later
patterns are not consulted. -/
theorem extractName_eq_of_cue1 (l cap : List Char)
    (h : findCue cueMyNameIs l = some cap) :
    extractName l = some (String.mk cap) := by
  rw [extractName, h]

/-- Equation of the ladder when only the second pattern matches. -/
theorem extractName_eq_of_cue2 (l cap : List Char)
    (h1 : findCue cueMyNameIs l = none)
    (h2 : findCue cueIm l = some cap) :
    extractName l = some (String.mk cap) := by
  rw [extractName, h1, h2]

/-- Equation of the ladder when only the third pattern matches. -/
theorem extractName_eq_of_cue3 (l cap : List Char)
    (h1 : findCue cueMyNameIs l = none)
    (h2 : findCue cueIm l = none)
    (h3 : findCue cueThisIs l = some cap) :
    extractName l = some (String.mk cap) := by
  rw [extractName, h1, h2, h3]

/-- Equation of the ladder when no pattern matches. -/
theorem extractName_eq_of_none (l : List Char)
    (h1 : findCue cueMyNameIs l = none)
    (h2 : findCue cueIm l = none)
    (h3 : findCue cueThisIs l = none) :
    extractName l = none := by
  rw [extractName, h1, h2, h3]

/-- The ladder yields a name exactly when some cue matches. -/
theorem extractName_isSome_of_cue (l : List Char)
    (h : (findCue cueMyNameIs l).isSome ∨ (findCue cueIm l).isSome ∨
      (findCue cueThisIs l).isSome) : (extractName l).isSome := by
  cases h1 : findCue cueMyNameIs l with
  | some cap => rw [extractName_eq_of_cue1 l cap h1]; rfl
  | none =>
    cases h2 : findCue cueIm l with
    | some cap => rw [extractName_eq_of_cue2 l cap h1 h2]; rfl
    | none =>
      cases h3 : findCue cueThisIs l with
      | some cap => rw [extractName_eq_of_cue3 l cap h1 h2 h3]; rfl
      | none =>
        rw [h1, h2, h3] at h
        simp at h

/-- Appending text never makes the name-pattern ladder lose a match. -/
theorem extractName_append_isSome (l m : List Char)
    (h : (extractName l).isSome) : (extractName (l ++ m)).isSome := by
  apply extractName_isSome_of_cue
  cases h1 : findCue cueMyNameIs l with
  | some cap =>
    exact Or.inl (findCue_append_isSome cueMyNameIs l m (by rw [h1]; rfl))
  | none =>
    cases h2 : findCue cueIm l with
    | some cap =>
      exact Or.inr (Or.inl (findCue_append_isSome cueIm l m (by rw [h2]; rfl)))
    | none =>
      cases h3 : findCue cueThisIs l with
      | some cap =>
        exact Or.inr (Or.inr (findCue_append_isSome cueThisIs l m (by rw [h3]; rfl)))
      | none =>
        rw [extractName_eq_of_none l h1 h2 h3] at h
        simp at h

/-- Appending text never makes the vocabulary scan lose every match. -/
theorem findFirstIncluded_append_isSome (text ext : List Char) :
    ∀ ws : List String, (findFirstIncluded text ws).isSome →
      (findFirstIncluded (text ++ ext) ws).isSome := by
  intro ws
  induction ws with
  | nil =>
    intro h
    simp [findFirstIncluded] at h
  | cons w ws ih =>
    intro h
    rw [findFirstIncluded] at h ⊢
    cases hb : listContains text w.toList with
    | true =>
      rw [listContains_append_of text ext w.toList hb]
      simp
    | false =>
      rw [hb] at h
      simp only [Bool.false_eq_true, if_false] at h
      cases hb2 : listContains (text ++ ext) w.toList with
      | true => simp
      | false => simp only [Bool.false_eq_true, if_false]; exact ih h

/-- Characters of an appended string. -/
theorem string_toList_append (s t : String) :
    (s ++ t).toList = s.toList ++ t.toList := by
  simp [String.toList]

/-- Extractor monotonicity, name field: extending the transcript on the
right never drops an extracted name. -/
theorem extract_name_mono (s t : String)
    (h : (extractInformation s).name.isSome) :
    (extractInformation (s ++ t)).name.isSome := by
  simp only [extractInformation] at h ⊢
  rw [string_toList_append]
  exact extractName_append_isSome s.toList t.toList h

/-- Extractor monotonicity, color field. -/
theorem extract_color_mono (s t : String)
    (h : (extractInformation s).favoriteColor.isSome) :
    (extractInformation (s ++ t)).favoriteColor.isSome := by
  simp only [extractInformation] at h ⊢
  rw [string_toList_append]
  rw [lowerL, List.map_append]
  exact findFirstIncluded_append_isSome _ _ colors h

/-- Extractor monotonicity, steak-preference field. -/
theorem extract_steak_mono (s t : String)
    (h : (extractInformation s).steakPreference.isSome) :
    (extractInformation (s ++ t)).steakPreference.isSome := by
  simp only [extractInformation] at h ⊢
  rw [string_toList_append]
  rw [lowerL, List.map_append]
  exact findFirstIncluded_append_isSome _ _ steakPrefs h

/-- On an empty transcript the extractor returns the empty record. -/
theorem extract_empty : extractInformation (fullText []) = {} := by decide

/-- After the UPDATE, the row found for the call_sid carries the new
history and collected data on top of the row found before. -/
theorem findRow_updateSession (sessions : List SessionRow) (sid : String)
    (hist : List Msg) (data : Info) (row : SessionRow)
    (h : findRow sessions sid = some row) :
    findRow (updateSession sessions sid hist data) sid =
      some { row with conversation_state := hist, collected_data := data } := by
  induction sessions with
  | nil => simp [findRow] at h
  | cons r rs ih =>
    cases hr : (r.call_sid == sid) with
    | true =>
      simp only [findRow, List.find?_cons, hr] at h
      injection h with h
      subst h
      simp only [updateSession, List.map_cons, findRow]
      rw [if_pos hr]
      simp only [List.find?_cons, hr]
    | false =>
      simp only [findRow, List.find?_cons, hr] at h
      have hr2 : ¬(r.call_sid == sid) = true := by simp [hr]
      simp only [updateSession, List.map_cons, findRow]
      rw [if_neg hr2]
      simp only [List.find?_cons, hr]
      exact ih h

/-- Behaviour of the handler when the session row is missing: the
dereference of the undefined row throws, the catch converts the throw into
the apology plus another gather, and nothing was persisted. -/
theorem handleTurn_of_noRow (gen : List Msg → String → Except GenError String)
    (smsOk : Bool) (w : World) (callSid fromNum u : String)
    (h : findRow w.sessions callSid = none) :
    handleTurn gen smsOk w callSid fromNum u = (Outcome.failed failedPrompt, w) := by
  rw [handleTurn, gatherTry, getSession, h]

/-- Behaviour of the handler when the generation collaborator throws:
the catch produces the apology and the World is untouched (updateSession
had not yet run). -/
theorem handleTurn_of_genError (gen : List Msg → String → Except GenError String)
    (smsOk : Bool) (w : World) (callSid fromNum u : String)
    (session : SessionRow) (e : GenError)
    (h1 : findRow w.sessions callSid = some session)
    (h2 : gen (sliceLast 6 (session.conversation_state ++ [userMsg u])) u =
      Except.error e) :
    handleTurn gen smsOk w callSid fromNum u = (Outcome.failed failedPrompt, w) := by
  rw [handleTurn, gatherTry, getSession, h1]
  simp only [h2]

/-- The one-step reduction of gatherTry on a found session and a
successful generation call. -/
theorem gatherTry_of_some_ok (gen : List Msg → String → Except GenError String)
    (smsOk : Bool) (w : World) (callSid fromNum u : String)
    (session : SessionRow) (ai : String)
    (h1 : findRow w.sessions callSid = some session)
    (h2 : gen (sliceLast 6 (session.conversation_state ++ [userMsg u])) u =
      Except.ok ai) :
    gatherTry gen smsOk w callSid fromNum u =
      (if (turnInfo session u ai).name.isSome &&
          (turnInfo session u ai).favoriteColor.isSome &&
          (turnInfo session u ai).steakPreference.isSome then
        Except.ok
          (Outcome.complete (completePrompt ((turnInfo session u ai).name.getD "")),
           { sessions := updateSession w.sessions callSid (turnHistory session u ai) (turnInfo session u ai),
             customers := saveCustomerData w.customers fromNum (turnInfo session u ai),
             smsOutbox := sendSteakInstructions smsOk w.smsOutbox fromNum (turnInfo session u ai) })
      else
        Except.ok (Outcome.cont ai,
          { w with sessions := updateSession w.sessions callSid (turnHistory session u ai) (turnInfo session u ai) })) := by
  rw [gatherTry, getSession, h1]
  simp only [h2]
  rfl

/-- Behaviour of the handler on a successful turn that completes the
record. -/
theorem handleTurn_of_complete (gen : List Msg → String → Except GenError String)
    (smsOk : Bool) (w : World) (callSid fromNum u : String)
    (session : SessionRow) (ai : String)
    (h1 : findRow w.sessions callSid = some session)
    (h2 : gen (sliceLast 6 (session.conversation_state ++ [userMsg u])) u =
      Except.ok ai)
    (hall : ((turnInfo session u ai).name.isSome &&
      (turnInfo session u ai).favoriteColor.isSome &&
      (turnInfo session u ai).steakPreference.isSome) = true) :
    handleTurn gen smsOk w callSid fromNum u =
      (Outcome.complete (completePrompt ((turnInfo session u ai).name.getD "")),
       { sessions := updateSession w.sessions callSid (turnHistory session u ai) (turnInfo session u ai),
         customers := saveCustomerData w.customers fromNum (turnInfo session u ai),
         smsOutbox := sendSteakInstructions smsOk w.smsOutbox fromNum (turnInfo session u ai) }) := by
  rw [handleTurn, gatherTry_of_some_ok gen smsOk w callSid fromNum u session ai h1 h2,
    if_pos hall]

/-- Behaviour of the handler on a successful turn that leaves the record
incomplete. -/
theorem handleTurn_of_continue (gen : List Msg → String → Except GenError String)
    (smsOk : Bool) (w : World) (callSid fromNum u : String)
    (session : SessionRow) (ai : String)
    (h1 : findRow w.sessions callSid = some session)
    (h2 : gen (sliceLast 6 (session.conversation_state ++ [userMsg u])) u =
      Except.ok ai)
    (hall : ((turnInfo session u ai).name.isSome &&
      (turnInfo session u ai).favoriteColor.isSome &&
      (turnInfo session u ai).steakPreference.isSome) = false) :
    handleTurn gen smsOk w callSid fromNum u =
      (Outcome.cont ai,
       { w with sessions := updateSession w.sessions callSid (turnHistory session u ai) (turnInfo session u ai) }) := by
  rw [handleTurn, gatherTry_of_some_ok gen smsOk w callSid fromNum u session ai h1 h2,
    if_neg (by rw [hall]; simp)]

/-- The UPDATE touches no other table: spelled out where needed. -/
theorem filter_of_filter_not (customers : List CustomerRow) (phone : String) :
    (customers.filter (fun c => !(c.phone_number == phone))).filter
      (fun c => c.phone_number == phone) = [] := by
  induction customers with
  | nil => rfl
  | cons c cs ih =>
    cases hc : (c.phone_number == phone) with
    | true => simp [List.filter_cons, hc, ih]
    | false => simp [List.filter_cons, hc, ih]

/-- After saveCustomerData the customers table holds exactly one row for
the phone number, carrying the extracted values. -/
theorem saveCustomerData_filter (customers : List CustomerRow)
    (phone : String) (info : Info) :
    (saveCustomerData customers phone info).filter
        (fun c => c.phone_number == phone) =
      [{ phone_number := phone
         name := info.name.getD ""
         favorite_color := info.favoriteColor.getD ""
         steak_preference := info.steakPreference.getD "" }] := by
  rw [saveCustomerData, List.filter_append, filter_of_filter_not]
  simp [List.filter_cons]

/-- The full conversation blob after a turn, once the history is
nonempty: the old blob extended on the right by the two new contents. -/
theorem fullText_append_two (conv : List Msg) (u ai : String)
    (h : conv ≠ []) :
    fullText (conv ++ [userMsg u] ++ [assistantMsg ai]) =
      fullText conv ++ (" " ++ (u ++ (" " ++ ai))) := by
  rw [fullText, fullText, List.append_assoc, List.map_append]
  rw [show (([userMsg u] ++ [assistantMsg ai]).map Msg.content) = [u, ai] from rfl]
  rw [joinSpace_append _ _ (by simpa using h) (by simp)]
  rw [show joinSpace [u, ai] = u ++ " " ++ ai from rfl]
  simp [String.append_assoc]

/-- The head vocabulary word of colors is selected as soon as "red" occurs
in the lower-cased text, whatever else occurs. -/
theorem favoriteColor_red_of_contains (s : String)
    (h : listContains (lowerL s.toList) ("red".toList) = true) :
    (extractInformation s).favoriteColor = some "red" := by
  simp only [extractInformation]
  rw [colors, findFirstIncluded, if_pos h]

/- ---------------- Claims ----------------------------------------------- -/

/-- C1: the claim states that a transcript containing "medium rare" always
extracts steakPreference "medium rare" because multi-word phrases are
tested first. The code tests the single word "rare" FIRST
(steakPrefs = [rare, medium rare, medium well, medium, well done]), and
"rare" is a substring of "medium rare", so the extractor returns "rare"
for this transcript — the value "medium rare" is unreachable. This theorem
evaluates the code at the failing input: the text contains the phrase
"medium rare" yet the extracted preference is "rare". -/
theorem c1_medium_rare_yields_rare :
    listContains (lowerL ("I want my steak medium rare".toList))
        ("medium rare".toList) = true ∧
    (extractInformation "I want my steak medium rare").steakPreference =
      some "rare" := by
  exact ⟨by decide, by decide⟩

/-- C2: when the generation collaborator throws, handleTurn returns the
Failed outcome with the graceful retry prompt and another listening turn
(gather), and the persisted World — sessions, hence history and
partialRecord, customers, outbox — is exactly the one before the turn. -/
theorem c2_generation_failure_leaves_state_unchanged
    (gen : List Msg → String → Except GenError String) (smsOk : Bool)
    (w : World) (callSid fromNum u : String) (e : GenError)
    (hgen : ∀ hist utt, gen hist utt = Except.error e) :
    handleTurn gen smsOk w callSid fromNum u = (Outcome.failed failedPrompt, w) ∧
    gathersAgain (handleTurn gen smsOk w callSid fromNum u).1 = true := by
  have hmain : handleTurn gen smsOk w callSid fromNum u =
      (Outcome.failed failedPrompt, w) := by
    cases hfind : findRow w.sessions callSid with
    | none => exact handleTurn_of_noRow gen smsOk w callSid fromNum u hfind
    | some session =>
      exact handleTurn_of_genError gen smsOk w callSid fromNum u session e
        hfind (hgen _ _)
  exact ⟨hmain, by rw [hmain]; rfl⟩

/-- Witness for C2: a concrete turn-2 world; the OpenAI call fails; the
outcome is Failed with a gather and the stored session still holds only
turn 1, with its partial record intact. -/
theorem c2_witness :
    handleTurn failGen true worldTurn1 "CA1" "+15550100" "I like blue" =
      (Outcome.failed failedPrompt, worldTurn1) ∧
    gathersAgain
      (handleTurn failGen true worldTurn1 "CA1" "+15550100" "I like blue").1 =
      true :=
  c2_generation_failure_leaves_state_unchanged failGen true worldTurn1
    "CA1" "+15550100" "I like blue" GenError.generationUnavailable
    (fun _ _ => rfl)

/-- C4 counterexample: the claim states that getSession fails with
SessionNotFound when no session exists. On the empty table the promise
RESOLVES with undefined (modelled Except.ok none): it does not fail. -/
theorem c4_counterexample :
    getSession ([] : List SessionRow) "CA1" = Except.ok none ∧
    getSession ([] : List SessionRow) "CA1" ≠
      Except.error StoreError.sessionNotFound :=
  ⟨rfl, fun h => Except.noConfusion h⟩

/-- C4 amended: when no session exists for the callId, getSession resolves
with no row (undefined) rather than failing; the missing session only
surfaces once the /gather handler dereferences the undefined value, whose
TypeError the generic catch converts into the Failed outcome, leaving the
state unchanged. -/
theorem c4_get_missing_session_resolves_none
    (gen : List Msg → String → Except GenError String) (smsOk : Bool)
    (sessions : List SessionRow) (customers : List CustomerRow)
    (outbox : List SmsRecord) (sid fromNum u : String)
    (h : findRow sessions sid = none) :
    getSession sessions sid = Except.ok none ∧
    handleTurn gen smsOk ⟨sessions, customers, outbox⟩ sid fromNum u =
      (Outcome.failed failedPrompt, ⟨sessions, customers, outbox⟩) :=
  ⟨by rw [getSession, h],
   handleTurn_of_noRow gen smsOk ⟨sessions, customers, outbox⟩ sid fromNum u h⟩

/-- Witness for C4: the empty table at a concrete callId. -/
theorem c4_witness :
    getSession ([] : List SessionRow) "CA7" = Except.ok none ∧
    handleTurn okGen true ⟨[], [], []⟩ "CA7" "+15550100" "hello" =
      (Outcome.failed failedPrompt, ⟨[], [], []⟩) :=
  c4_get_missing_session_resolves_none okGen true [] [] [] "CA7" "+15550100"
    "hello" rfl

/-- C5: whenever the lower-cased transcript contains both "blue" and
"red", the extractor returns red — "red" is first in the fixed vocabulary
and the scan breaks at the first hit, wherever the words sit in the
text. -/
theorem c5_red_wins_over_blue (s : String)
    (hred : listContains (lowerL s.toList) ("red".toList) = true)
    (hblue : listContains (lowerL s.toList) ("blue".toList) = true) :
    (extractInformation s).favoriteColor = some "red" :=
  favoriteColor_red_of_contains s hred

/-- Witness for C5: blue appears before red in the text; red still wins. -/
theorem c5_witness :
    listContains (lowerL ("I like blue and red".toList)) ("red".toList) = true ∧
    listContains (lowerL ("I like blue and red".toList)) ("blue".toList) = true ∧
    (extractInformation "I like blue and red").favoriteColor = some "red" :=
  ⟨by decide, by decide,
   c5_red_wins_over_blue "I like blue and red" (by decide) (by decide)⟩

/-- C6 counterexample: the claim states that any transcript containing
"my name is Ana" yields name "Ana" independent of surrounding text.
String.prototype.match returns the LEFTMOST match, so an earlier
"my name is Bob" wins: the transcript below contains the phrase
"my name is Ana" yet extracts "Bob". -/
theorem c6_counterexample :
    listContains ("my name is Bob and my name is Ana".toList)
        ("my name is Ana".toList) = true ∧
    (extractInformation "my name is Bob and my name is Ana").name =
      some "Bob" ∧
    (extractInformation "my name is Bob and my name is Ana").name ≠
      some "Ana" :=
  ⟨by decide, by decide, by decide⟩

/-- C6 amended: for every transcript whose LEFTMOST match of the first
pattern "my name is X" captures "Ana" — in particular one with no earlier
occurrence of the cue — the extractor returns name "Ana"; the first
matching pattern short-circuits, so the later patterns ("i am", "this is")
are not consulted even when they would match. -/
theorem c6_first_pattern_match_wins (s : String)
    (h : findCue cueMyNameIs s.toList = some ("Ana".toList)) :
    (extractInformation s).name = some "Ana" := by
  simp only [extractInformation]
  rw [extractName_eq_of_cue1 s.toList ("Ana".toList) h]
  rfl

/-- Witness for C6: the leftmost "my name is" capture is Ana; a later
"this is Bob" is ignored because the first pattern already matched. -/
theorem c6_witness :
    findCue cueMyNameIs ("well my name is Ana and this is Bob".toList) =
      some ("Ana".toList) ∧
    (extractInformation "well my name is Ana and this is Bob").name =
      some "Ana" :=
  ⟨by decide,
   c6_first_pattern_match_wins "well my name is Ana and this is Bob" (by decide)⟩

/-- C10: color detection is raw substring matching on the lower-cased
transcript, not word matching: any transcript containing "bored" contains
"red" as a substring, and red is first in the vocabulary, so the extractor
reports favoriteColor red although no color was mentioned. -/
theorem c10_substring_false_positive (s : String)
    (h : listContains (lowerL s.toList) ("bored".toList) = true) :
    (extractInformation s).favoriteColor = some "red" := by
  have hred : listContains (lowerL s.toList) ("red".toList) = true :=
    listContains_trans _ _ _ h (by decide)
  exact favoriteColor_red_of_contains s hred

/-- Witness for C10: a transcript with no color word at all. -/
theorem c10_witness :
    listContains (lowerL ("I am so bored today".toList)) ("bored".toList) = true ∧
    (extractInformation "I am so bored today").favoriteColor = some "red" :=
  ⟨by decide, c10_substring_false_positive "I am so bored today" (by decide)⟩

/-- C3: on a successful turn, the handler completes exactly when the
re-extraction over the full history has all three fields: it then speaks
the closing prompt embedding the extracted name, upserts the customer row
keyed by the caller address, and triggers the notification (one new SMS in
the outbox); otherwise it continues with the generated text as the next
prompt and only the session is updated. -/
theorem c3_complete_iff_all_fields
    (gen : List Msg → String → Except GenError String)
    (w : World) (callSid fromNum u : String) (session : SessionRow)
    (ai : String)
    (h1 : findRow w.sessions callSid = some session)
    (h2 : gen (sliceLast 6 (session.conversation_state ++ [userMsg u])) u =
      Except.ok ai) :
    (((turnInfo session u ai).name.isSome &&
        (turnInfo session u ai).favoriteColor.isSome &&
        (turnInfo session u ai).steakPreference.isSome) = true →
      (handleTurn gen true w callSid fromNum u).1 =
        Outcome.complete (completePrompt ((turnInfo session u ai).name.getD "")) ∧
      ((handleTurn gen true w callSid fromNum u).2.customers.filter
          (fun c => c.phone_number == fromNum)) =
        [{ phone_number := fromNum,
           name := (turnInfo session u ai).name.getD "",
           favorite_color := (turnInfo session u ai).favoriteColor.getD "",
           steak_preference := (turnInfo session u ai).steakPreference.getD "" }] ∧
      (handleTurn gen true w callSid fromNum u).2.smsOutbox.length =
        w.smsOutbox.length + 1) ∧
    (((turnInfo session u ai).name.isSome &&
        (turnInfo session u ai).favoriteColor.isSome &&
        (turnInfo session u ai).steakPreference.isSome) = false →
      handleTurn gen true w callSid fromNum u =
        (Outcome.cont ai,
         { w with sessions := updateSession w.sessions callSid (turnHistory session u ai) (turnInfo session u ai) })) ∧
    (∀ p, (handleTurn gen true w callSid fromNum u).1 = Outcome.complete p →
      ((turnInfo session u ai).name.isSome &&
        (turnInfo session u ai).favoriteColor.isSome &&
        (turnInfo session u ai).steakPreference.isSome) = true) := by
  refine ⟨?_, ?_, ?_⟩
  · intro hall
    rw [handleTurn_of_complete gen true w callSid fromNum u session ai h1 h2 hall]
    refine ⟨rfl, ?_, ?_⟩
    · exact saveCustomerData_filter w.customers fromNum (turnInfo session u ai)
    · simp [sendSteakInstructions]
  · intro hall
    exact handleTurn_of_continue gen true w callSid fromNum u session ai h1 h2 hall
  · intro p hp
    cases hall : ((turnInfo session u ai).name.isSome &&
        (turnInfo session u ai).favoriteColor.isSome &&
        (turnInfo session u ai).steakPreference.isSome) with
    | true => rfl
    | false =>
      rw [handleTurn_of_continue gen true w callSid fromNum u session ai
        h1 h2 hall] at hp
      simp at hp

/-- Witness for C3: the completing turn of the end-to-end scenario.
The spoken prompt embeds the name Sam, the customer table holds exactly
the one completed row for the caller, and exactly one SMS left. -/
theorem c3_witness :
    (handleTurn okGen true worldTurn3 "CA1" "+15550100" "Medium well please").1 =
      Outcome.complete (completePrompt "Sam") ∧
    ((handleTurn okGen true worldTurn3 "CA1" "+15550100" "Medium well please").2.customers.filter
        (fun c => c.phone_number == "+15550100")) =
      [{ phone_number := "+15550100", name := "Sam",
         favorite_color := "blue", steak_preference := "medium well" }] ∧
    (handleTurn okGen true worldTurn3 "CA1" "+15550100" "Medium well please").2.smsOutbox.length = 1 := by
  have h := c3_complete_iff_all_fields okGen worldTurn3 "CA1" "+15550100"
    "Medium well please" sessionTurn3 "Thank you, that sounds lovely."
    rfl rfl
  have hc := h.1 (by decide)
  refine ⟨?_, ?_, ?_⟩
  · rw [hc.1]; rfl
  · rw [hc.2.1]; rfl
  · rw [hc.2.2]; rfl

/-- C7: the stored partial record never loses a field over a successful
turn. If the session's collected data is the extraction over its stored
history (the invariant every successful turn re-establishes), then after
handleTurn the stored row holds the re-extraction over the grown history,
and every field that was present is still present — whatever the new
utterance mentions. -/
theorem c7_partial_record_monotone
    (gen : List Msg → String → Except GenError String) (smsOk : Bool)
    (w : World) (callSid fromNum u : String) (session : SessionRow)
    (ai : String)
    (h1 : findRow w.sessions callSid = some session)
    (hinv : session.collected_data =
      extractInformation (fullText session.conversation_state))
    (h2 : gen (sliceLast 6 (session.conversation_state ++ [userMsg u])) u =
      Except.ok ai) :
    ∃ row2,
      findRow (handleTurn gen smsOk w callSid fromNum u).2.sessions callSid =
        some row2 ∧
      row2.collected_data = turnInfo session u ai ∧
      (session.collected_data.name.isSome →
        row2.collected_data.name.isSome) ∧
      (session.collected_data.favoriteColor.isSome →
        row2.collected_data.favoriteColor.isSome) ∧
      (session.collected_data.steakPreference.isSome →
        row2.collected_data.steakPreference.isSome) := by
  have hrow2 := findRow_updateSession w.sessions callSid
    (turnHistory session u ai) (turnInfo session u ai) session h1
  have hmonoName : session.collected_data.name.isSome →
      (turnInfo session u ai).name.isSome := by
    intro hx
    rw [hinv] at hx
    cases hconv : session.conversation_state with
    | nil =>
      rw [hconv, extract_empty] at hx
      simp at hx
    | cons m ms =>
      rw [turnInfo, turnHistory,
        fullText_append_two session.conversation_state u ai (by rw [hconv]; simp)]
      exact extract_name_mono _ _ hx
  have hmonoColor : session.collected_data.favoriteColor.isSome →
      (turnInfo session u ai).favoriteColor.isSome := by
    intro hx
    rw [hinv] at hx
    cases hconv : session.conversation_state with
    | nil =>
      rw [hconv, extract_empty] at hx
      simp at hx
    | cons m ms =>
      rw [turnInfo, turnHistory,
        fullText_append_two session.conversation_state u ai (by rw [hconv]; simp)]
      exact extract_color_mono _ _ hx
  have hmonoSteak : session.collected_data.steakPreference.isSome →
      (turnInfo session u ai).steakPreference.isSome := by
    intro hx
    rw [hinv] at hx
    cases hconv : session.conversation_state with
    | nil =>
      rw [hconv, extract_empty] at hx
      simp at hx
    | cons m ms =>
      rw [turnInfo, turnHistory,
        fullText_append_two session.conversation_state u ai (by rw [hconv]; simp)]
      exact extract_steak_mono _ _ hx
  cases hall : ((turnInfo session u ai).name.isSome &&
      (turnInfo session u ai).favoriteColor.isSome &&
      (turnInfo session u ai).steakPreference.isSome) with
  | true =>
    rw [handleTurn_of_complete gen smsOk w callSid fromNum u session ai h1 h2 hall]
    exact ⟨_, hrow2, rfl, hmonoName, hmonoColor, hmonoSteak⟩
  | false =>
    rw [handleTurn_of_continue gen smsOk w callSid fromNum u session ai h1 h2 hall]
    exact ⟨_, hrow2, rfl, hmonoName, hmonoColor, hmonoSteak⟩

/-- Witness for C7: after turn 1 the name Sam is stored; a turn about dogs
mentions no slot, yet the updated row keeps the name present. -/
theorem c7_witness :
    findRow worldTurn1.sessions "CA1" = some sessionTurn1 ∧
    sessionTurn1.collected_data =
      extractInformation (fullText sessionTurn1.conversation_state) ∧
    (∃ row2,
      findRow (handleTurn okGen true worldTurn1 "CA1" "+15550100" "I like dogs").2.sessions "CA1" =
        some row2 ∧
      row2.collected_data =
        turnInfo sessionTurn1 "I like dogs" "Thank you, that sounds lovely." ∧
      (sessionTurn1.collected_data.name.isSome →
        row2.collected_data.name.isSome) ∧
      (sessionTurn1.collected_data.favoriteColor.isSome →
        row2.collected_data.favoriteColor.isSome) ∧
      (sessionTurn1.collected_data.steakPreference.isSome →
        row2.collected_data.steakPreference.isSome)) :=
  ⟨rfl, rfl,
   c7_partial_record_monotone okGen true worldTurn1 "CA1" "+15550100"
     "I like dogs" sessionTurn1 "Thank you, that sounds lovely." rfl rfl rfl⟩

/-- C8 counterexample: the claim states that two concurrent getOrCreate
invocations for the same callId persist exactly one session row.
getOrCreateSession is a read-then-insert with no uniqueness constraint on
call_sid: under the schedule where both SELECTs run before either INSERT,
two rows for the callId are persisted. -/
theorem c8_counterexample :
    ((run2 racySchedule [] (mkThread "CA1" "+15550100")
        (mkThread "CA1" "+15550200")).1.filter
      (fun r => r.call_sid == "CA1")).length = 2 ∧
    ((run2 racySchedule [] (mkThread "CA1" "+15550100")
        (mkThread "CA1" "+15550200")).1.filter
      (fun r => r.call_sid == "CA1")).length ≠ 1 :=
  ⟨by decide, by decide⟩

/-- C8 amended: getOrCreateSession races on its create path. Under the
racy schedule (both reads before either insert) two rows with the same
call_sid are persisted; both invocations still observe the requested
callId. Under the sequential schedule exactly one row is persisted and
both invocations observe it. -/
theorem c8_create_path_race (sid pA pB : String) :
    (((run2 racySchedule [] (mkThread sid pA) (mkThread sid pB)).1.filter
        (fun r => r.call_sid == sid)).length = 2 ∧
      observedSid (run2 racySchedule [] (mkThread sid pA) (mkThread sid pB)).2.1 =
        some sid ∧
      observedSid (run2 racySchedule [] (mkThread sid pA) (mkThread sid pB)).2.2 =
        some sid) ∧
    (((run2 seqSchedule [] (mkThread sid pA) (mkThread sid pB)).1.filter
        (fun r => r.call_sid == sid)).length = 1 ∧
      observedSid (run2 seqSchedule [] (mkThread sid pA) (mkThread sid pB)).2.1 =
        some sid ∧
      observedSid (run2 seqSchedule [] (mkThread sid pA) (mkThread sid pB)).2.2 =
        some sid) := by
  simp [run2, racySchedule, seqSchedule, stepThread, mkThread, mkRow, findRow,
    observedSid, List.filter_cons]

/-- C9: a notification (SMS) failure is swallowed inside
sendSteakInstructions: the outcome, the stored sessions and the saved
customer records of a turn are identical whether the Twilio send succeeds
or fails — only the outbox differs. In particular a Complete outcome stays
Complete and the already-saved customer record stays saved. -/
theorem c9_sms_failure_swallowed
    (gen : List Msg → String → Except GenError String)
    (w : World) (sid fromNum u : String) :
    (handleTurn gen false w sid fromNum u).1 =
      (handleTurn gen true w sid fromNum u).1 ∧
    (handleTurn gen false w sid fromNum u).2.sessions =
      (handleTurn gen true w sid fromNum u).2.sessions ∧
    (handleTurn gen false w sid fromNum u).2.customers =
      (handleTurn gen true w sid fromNum u).2.customers := by
  cases hfind : findRow w.sessions sid with
  | none =>
    rw [handleTurn_of_noRow gen false w sid fromNum u hfind,
      handleTurn_of_noRow gen true w sid fromNum u hfind]
    exact ⟨rfl, rfl, rfl⟩
  | some session =>
    cases hgen : gen (sliceLast 6 (session.conversation_state ++ [userMsg u])) u with
    | error e =>
      rw [handleTurn_of_genError gen false w sid fromNum u session e hfind hgen,
        handleTurn_of_genError gen true w sid fromNum u session e hfind hgen]
      exact ⟨rfl, rfl, rfl⟩
    | ok ai =>
      cases hall : ((turnInfo session u ai).name.isSome &&
          (turnInfo session u ai).favoriteColor.isSome &&
          (turnInfo session u ai).steakPreference.isSome) with
      | true =>
        rw [handleTurn_of_complete gen false w sid fromNum u session ai hfind hgen hall,
          handleTurn_of_complete gen true w sid fromNum u session ai hfind hgen hall]
        exact ⟨rfl, rfl, rfl⟩
      | false =>
        rw [handleTurn_of_continue gen false w sid fromNum u session ai hfind hgen hall,
          handleTurn_of_continue gen true w sid fromNum u session ai hfind hgen hall]
        exact ⟨rfl, rfl, rfl⟩
